import Mathlib

/-!
# Verification of criterion-hypothesis against its specification

A shallow embedding in Lean 4 of the parts of the `criterion-hypothesis`
repository that the verified properties are about:

* the statistical engine (`src/criterion-hypothesis/src/stats/ttest.rs`,
  Welch's t-test, `WelchTTest::analyze`),
* the harness HTTP handlers and benchmark registry
  (`src/criterion-hypothesis-harness/src/server.rs`,
  `src/criterion-hypothesis-harness/src/lib.rs`),
* wire-protocol response types
  (`src/criterion-hypothesis-core/src/protocol.rs`),
* the orchestrator's health-wait loop
  (`src/criterion-hypothesis/src/orchestrator.rs`).

Modelling conventions:

* A Rust `Duration` is a non-negative nanosecond count; we embed it as `ℕ`
  (total nanoseconds).  `Duration::as_nanos` is the identity under this view,
  and casts `as u64` are `% 2 ^ 64`.
* Rust `f64` arithmetic on sample statistics is embedded over `ℚ` (exact
  arithmetic; the code's numeric intent, per the spec, is real-valued).
  The two genuinely non-rational external operations — `f64::sqrt` and the
  `statrs` Student-t CDF — are passed as explicit function parameters, so that
  theorems quantify over them; hypotheses used about them (`sqrt 0 = 0`,
  CDF at 0 is `1/2`) are standard facts about those external collaborators.
  A `none` result of the CDF parameter models `StudentsT::new` returning
  `Err` (the code's conservative `p = 1` fallback).
* Async handlers are embedded as pure state-passing functions; the handler for
  `POST /run` additionally returns the list of benchmark ids whose registered
  functions were invoked while serving the request, which makes "the benchmark
  function is not invoked" an observable statement.
-/

namespace CriterionHypothesis

/-! ## Statistical engine: `src/criterion-hypothesis/src/stats/ttest.rs` -/

/-- `Side` from `criterion-hypothesis-core/src/stats/mod.rs`: which side of the
comparison a value refers to. -/
inductive Side where
  | Baseline : Side
  | Candidate : Side
deriving DecidableEq, Repr

/-- `TestResult` from `criterion-hypothesis-core/src/stats/mod.rs`: the verdict
of a statistical comparison.  `f64` fields are embedded as `ℚ`. -/
structure TestResult where
  p_value : ℚ
  statistically_significant : Bool
  effect_size : ℚ
  confidence_level : ℚ
  winner : Option Side
  baseline_mean_ns : ℚ
  candidate_mean_ns : ℚ
deriving DecidableEq, Repr

/-- `WelchTTest` from `ttest.rs`: carries the configured confidence level. -/
structure WelchTTest where
  confidence_level : ℚ
deriving DecidableEq, Repr

/-- `WelchTTest::mean_ns`: sample mean of durations in nanoseconds.
Returns `0` for an empty sample list, as the source does. -/
def mean_ns (samples : List ℕ) : ℚ :=
  if samples.isEmpty then 0
  else (samples.map (fun d => (d : ℚ))).sum / (samples.length : ℚ)

/-- `WelchTTest::variance_ns`: sample variance with Bessel's correction
(`n - 1` denominator).  Returns `0` when fewer than 2 samples. -/
def variance_ns (samples : List ℕ) (mean : ℚ) : ℚ :=
  if samples.length < 2 then 0
  else (samples.map (fun d => ((d : ℚ) - mean) * ((d : ℚ) - mean))).sum
        / ((samples.length - 1 : ℕ) : ℚ)

/-- `WelchTTest::welch_satterthwaite_df`: degrees of freedom by the
Welch–Satterthwaite equation, falling back to `min n1 n2 - 1` when the
denominator is zero.  Only called with `n1 ≥ 2` and `n2 ≥ 2`, so the `usize`
subtractions do not underflow and `ℕ` truncated subtraction agrees. -/
def welch_satterthwaite_df (var1 : ℚ) (n1 : ℕ) (var2 : ℚ) (n2 : ℕ) : ℚ :=
  let s1 := var1 / (n1 : ℚ)
  let s2 := var2 / (n2 : ℚ)
  let numerator := (s1 + s2) * (s1 + s2)
  let denominator := s1 * s1 / ((n1 - 1 : ℕ) : ℚ) + s2 * s2 / ((n2 - 1 : ℕ) : ℚ)
  if denominator = 0 then ((min n1 n2 - 1 : ℕ) : ℚ)
  else numerator / denominator

/-- `WelchTTest::analyze` (the `StatisticalTest` impl in `ttest.rs`).

`sqrtFn` stands for `f64::sqrt`; `tcdf df x` stands for
`StudentsT::new(0.0, 1.0, df)` followed by `.cdf(x)`, with `none` modelling the
`Err` case of the constructor.  Everything else is translated line by line. -/
def analyze (sqrtFn : ℚ → ℚ) (tcdf : ℚ → ℚ → Option ℚ)
    (test : WelchTTest) (baseline candidate : List ℕ) : TestResult :=
  let n1 := baseline.length
  let n2 := candidate.length
  let mean1 := mean_ns baseline
  let mean2 := mean_ns candidate
  if n1 < 2 ∨ n2 < 2 then
    { p_value := 1
      statistically_significant := false
      effect_size := 0
      confidence_level := test.confidence_level
      winner := none
      baseline_mean_ns := mean1
      candidate_mean_ns := mean2 }
  else
    let var1 := variance_ns baseline mean1
    let var2 := variance_ns candidate mean2
    let se := sqrtFn (var1 / (n1 : ℚ) + var2 / (n2 : ℚ))
    if se = 0 then
      let effect_size := if mean1 ≠ 0 then ((mean1 - mean2) / mean1) * 100 else 0
      let winner :=
        if mean1 > mean2 then some Side.Candidate
        else if mean2 > mean1 then some Side.Baseline
        else none
      { p_value := if mean1 = mean2 then 1 else 0
        statistically_significant := decide (mean1 ≠ mean2)
        effect_size := effect_size
        confidence_level := test.confidence_level
        winner := winner
        baseline_mean_ns := mean1
        candidate_mean_ns := mean2 }
    else
      let t_statistic := (mean1 - mean2) / se
      let df := welch_satterthwaite_df var1 n1 var2 n2
      let p_value :=
        match tcdf df |t_statistic| with
        | some c => 2 * (1 - c)
        | none => 1
      let alpha := 1 - test.confidence_level
      let statistically_significant := decide (p_value < alpha)
      let effect_size := if mean1 ≠ 0 then ((mean1 - mean2) / mean1) * 100 else 0
      let winner :=
        if statistically_significant then
          if mean1 > mean2 then some Side.Candidate else some Side.Baseline
        else none
      { p_value := p_value
        statistically_significant := statistically_significant
        effect_size := effect_size
        confidence_level := test.confidence_level
        winner := winner
        baseline_mean_ns := mean1
        candidate_mean_ns := mean2 }

/-! ## Wire protocol: `src/criterion-hypothesis-core/src/protocol.rs` -/

/-- `RunIterationResponse` from `protocol.rs`.  `duration_ns` is a `u64`; the
constructors below maintain `duration_ns < 2 ^ 64`. -/
structure RunIterationResponse where
  duration_ns : ℕ
  success : Bool
  error : Option String
deriving DecidableEq, Repr

/-- `RunIterationResponse::success(duration)`: `duration.as_nanos() as u64` is
the total nanosecond count truncated modulo `2 ^ 64` (`as_nanos` itself is
exact; only the `as u64` cast truncates). -/
def RunIterationResponse.mkSuccess (duration : ℕ) : RunIterationResponse :=
  { duration_ns := duration % 2 ^ 64
    success := true
    error := none }

/-- `RunIterationResponse::failure(error)`. -/
def RunIterationResponse.failure (error : String) : RunIterationResponse :=
  { duration_ns := 0
    success := false
    error := some error }

/-- `RunIterationResponse::duration()`: `Duration::from_nanos(self.duration_ns)`,
i.e. the `Duration` whose total nanosecond count is `duration_ns`. -/
def RunIterationResponse.duration (r : RunIterationResponse) : ℕ :=
  r.duration_ns

/-- The largest total-nanosecond count a Rust `Duration` can hold
(`u64::MAX` seconds plus `999 999 999` nanoseconds). -/
def durationMaxNanos : ℕ :=
  (2 ^ 64 - 1) * 1000000000 + 999999999

/-- Modelled from the spec: `ClaimResponse` (§4.1, `POST /claim` response body
`{success: bool, error?: string}`).  Its declaration lives in the
`criterion-hypothesis-core` protocol module, whose claim/release part is not
among the provided source files; `server.rs` consumes it. -/
structure ClaimResponse where
  success : Bool
  error : Option String
deriving DecidableEq, Repr

/-- Modelled from the spec: `ClaimResponse::success()` — a successful claim
response (`success = true`, no error). -/
def ClaimResponse.mkSuccess : ClaimResponse :=
  { success := true, error := none }

/-- Modelled from the spec: `ClaimResponse::already_claimed()` — the 409
response body carrying "already claimed" (§4.3, §8 scenario 4). -/
def ClaimResponse.already_claimed : ClaimResponse :=
  { success := false, error := some "already claimed" }

/-- Modelled from the spec: `ReleaseResponse` (§4.1, `POST /release` response
body `{success: bool}`); `server.rs` constructs `ReleaseResponse {success:
false}` literally and `ReleaseResponse::success()` for the success case. -/
structure ReleaseResponse where
  success : Bool
deriving DecidableEq, Repr

/-- Modelled from the spec: `ReleaseResponse::success()` — `{success: true}`. -/
def ReleaseResponse.mkSuccess : ReleaseResponse :=
  { success := true }

/-! ## Benchmark registry: `src/criterion-hypothesis-harness/src/lib.rs`

A benchmark function (`BenchmarkFn = Box<dyn Fn() -> Duration>`) executes one
iteration and returns the duration it took; invocation leaves all registry
state unchanged, so a function is embedded by the nanosecond count it
returns. -/

/-- `BenchmarkRegistry`: a `HashMap<String, BenchmarkFn>` embedded as an
association list with unique keys (the `register` operation below preserves
key uniqueness exactly as `HashMap::insert` does). -/
abbrev BenchmarkRegistry := List (String × ℕ)

/-- `BenchmarkRegistry::register`: `HashMap::insert` — replaces the entry for
an existing key, otherwise appends a new entry. -/
def register : BenchmarkRegistry → String → ℕ → BenchmarkRegistry
  | [], name, f => [(name, f)]
  | (k, g) :: rest, name, f =>
      if k = name then (k, f) :: rest else (k, g) :: register rest name f

/-- `HashMap::get` by key, the lookup underlying `BenchmarkRegistry::run` and
`BenchmarkRegistry::contains`. -/
def lookupBench : BenchmarkRegistry → String → Option ℕ
  | [], _ => none
  | (k, f) :: rest, name => if k = name then some f else lookupBench rest name

/-- `BenchmarkRegistry::run`: look the function up and invoke it, returning
the duration it reports; `none` when the name is not registered. -/
def runBench (r : BenchmarkRegistry) (name : String) : Option ℕ :=
  lookupBench r name

/-- `BenchmarkRegistry::contains`. -/
def containsBench (r : BenchmarkRegistry) (name : String) : Bool :=
  (lookupBench r name).isSome

/-- `BenchmarkRegistry::len`: number of stored entries (keys are unique). -/
def lenBench (r : BenchmarkRegistry) : ℕ :=
  r.length

/-! ## Harness HTTP handlers: `src/criterion-hypothesis-harness/src/server.rs`

The handlers mutate only the claim state (an `Option` nonce under a mutex) and
read the immutable registry; they are embedded as pure functions returning the
new claim state together with the HTTP status code and response body. -/

/-- `check_claim`: when the harness is claimed, require the `X-Harness-Claim`
header to equal the current nonce.  Returns `none` when the request may
proceed, `some (status, errorMessage)` for the 403 rejection.  A present
header is embedded as `some` of its string value (`to_str().unwrap_or("")`
reads a non-UTF-8 header as the empty string, still a string value). -/
def check_claim (claimState : Option String) (header : Option String) :
    Option (ℕ × String) :=
  match claimState with
  | some expected_nonce =>
      match header with
      | some provided =>
          if provided ≠ expected_nonce then some (403, "Invalid claim nonce")
          else none
      | none => some (403, "Harness is claimed, X-Harness-Claim header required")
  | none => none

/-- `claim` handler (`POST /claim`): returns the new claim state, the HTTP
status and the `ClaimResponse` body.  409 = `StatusCode::CONFLICT`,
200 = `StatusCode::OK`. -/
def claimHandler (claimState : Option String) (nonce : String) :
    Option String × ℕ × ClaimResponse :=
  match claimState with
  | some existing =>
      if existing ≠ nonce then
        (claimState, 409, ClaimResponse.already_claimed)
      else
        (claimState, 200, ClaimResponse.mkSuccess)
  | none => (some nonce, 200, ClaimResponse.mkSuccess)

/-- `release` handler (`POST /release`): returns the new claim state, the HTTP
status and the `ReleaseResponse` body.  400 = `StatusCode::BAD_REQUEST`. -/
def releaseHandler (claimState : Option String) (nonce : String) :
    Option String × ℕ × ReleaseResponse :=
  match claimState with
  | some existing =>
      if existing = nonce then
        (none, 200, ReleaseResponse.mkSuccess)
      else
        (claimState, 400, { success := false })
  | none => (claimState, 400, { success := false })

/-- Body of a `POST /run` HTTP response: either the JSON error object produced
by a failed `check_claim`, or a `RunIterationResponse`. -/
inductive RunHttpBody where
  | claimError (error : String) : RunHttpBody
  | iteration (resp : RunIterationResponse) : RunHttpBody
deriving DecidableEq, Repr

/-- Result of serving one `POST /run` request: the claim state and registry
after the request (the handler mutates neither), the HTTP status, the body,
and the list of benchmark ids whose registered functions were invoked while
serving the request (the handler's observable effect trace). -/
structure RunResult where
  claimState : Option String
  registry : BenchmarkRegistry
  status : ℕ
  body : RunHttpBody
  invoked : List String
deriving DecidableEq, Repr

/-- `run_iteration` handler (`POST /run`): check the claim, then look up and
invoke the benchmark.  404 = `StatusCode::NOT_FOUND`.  (The source's 404
message is `format!("Benchmark '{}' not found", id)`; the quotes around the id
are dropped here.) -/
def run_iteration (claimState : Option String) (registry : BenchmarkRegistry)
    (header : Option String) (benchmark_id : String) : RunResult :=
  match check_claim claimState header with
  | some (status, msg) =>
      { claimState := claimState
        registry := registry
        status := status
        body := RunHttpBody.claimError msg
        invoked := [] }
  | none =>
      match runBench registry benchmark_id with
      | some duration =>
          { claimState := claimState
            registry := registry
            status := 200
            body := RunHttpBody.iteration (RunIterationResponse.mkSuccess duration)
            invoked := [benchmark_id] }
      | none =>
          { claimState := claimState
            registry := registry
            status := 404
            body := RunHttpBody.iteration
              (RunIterationResponse.failure
                ("Benchmark " ++ benchmark_id ++ " not found"))
            invoked := [] }

/-! ## Orchestrator health wait: `src/criterion-hypothesis/src/orchestrator.rs`

`wait_for_health` is a polling loop over real time; it is embedded over an
explicit trace of poll outcomes.  The i-th trace entry is the result of the
i-th `health_check()` call (`none` = healthy, `some msg` = the error's display
string) paired with the value of `start.elapsed()` in milliseconds at the
moment the loop inspects that result. -/

/-- Outcome of the health-wait loop: `Ok(())`, the `TimeoutError` (carrying
`url`, `timeout_secs` and `last_error` exactly as the error variant does), or
still pending when the supplied trace ends before the loop decides. -/
inductive WaitOutcome where
  | ok : WaitOutcome
  | timeoutErr (url : String) (timeout_secs : ℕ) (last_error : String) : WaitOutcome
  | pending : WaitOutcome
deriving DecidableEq, Repr

/-- The loop's retry interval, `Duration::from_millis(100)`. -/
def retry_interval_ms : ℕ := 100

/-- The loop of `wait_for_health`, with `last_error` the accumulator the
source threads through iterations.  `timeout_ms` is the timeout in
milliseconds; `timeout.as_secs()` is `timeout_ms / 1000` (flooring).  On a
failing check past the timeout the error uses the previously recorded error
when there is one, else the current check's error
(`last_error.map(..).unwrap_or_else(|| e.to_string())`). -/
def wait_for_health_loop (url : String) (timeout_ms : ℕ)
    (last_error : Option String) : List (Option String × ℕ) → WaitOutcome
  | [] => WaitOutcome.pending
  | (result, elapsed) :: rest =>
      match result with
      | none => WaitOutcome.ok
      | some e =>
          if elapsed < timeout_ms then
            wait_for_health_loop url timeout_ms (some e) rest
          else
            WaitOutcome.timeoutErr url (timeout_ms / 1000) (last_error.getD e)

/-- `wait_for_health`: enter the loop with no error recorded. -/
def wait_for_health (url : String) (timeout_ms : ℕ)
    (trace : List (Option String × ℕ)) : WaitOutcome :=
  wait_for_health_loop url timeout_ms none trace

/-! ## Branch lemmas for `analyze` -/

/-- Insufficient data: either vector shorter than 2 yields the fixed
inconclusive result. -/
theorem analyze_insufficient (sqrtFn : ℚ → ℚ) (tcdf : ℚ → ℚ → Option ℚ)
    (test : WelchTTest) (baseline candidate : List ℕ)
    (h : baseline.length < 2 ∨ candidate.length < 2) :
    analyze sqrtFn tcdf test baseline candidate =
      { p_value := 1
        statistically_significant := false
        effect_size := 0
        confidence_level := test.confidence_level
        winner := none
        baseline_mean_ns := mean_ns baseline
        candidate_mean_ns := mean_ns candidate } := by
  simp only [analyze]
  rw [if_pos h]

/-- Zero standard error: both branches of the `se == 0.0` special case. -/
theorem analyze_se_zero (sqrtFn : ℚ → ℚ) (tcdf : ℚ → ℚ → Option ℚ)
    (test : WelchTTest) (baseline candidate : List ℕ)
    (hb : 2 ≤ baseline.length) (hc : 2 ≤ candidate.length)
    (hse : sqrtFn (variance_ns baseline (mean_ns baseline) / (baseline.length : ℚ)
      + variance_ns candidate (mean_ns candidate) / (candidate.length : ℚ)) = 0) :
    analyze sqrtFn tcdf test baseline candidate =
      { p_value := if mean_ns baseline = mean_ns candidate then 1 else 0
        statistically_significant := decide (mean_ns baseline ≠ mean_ns candidate)
        effect_size := if mean_ns baseline ≠ 0 then
            ((mean_ns baseline - mean_ns candidate) / mean_ns baseline) * 100 else 0
        confidence_level := test.confidence_level
        winner := if mean_ns baseline > mean_ns candidate then some Side.Candidate
          else if mean_ns candidate > mean_ns baseline then some Side.Baseline
          else none
        baseline_mean_ns := mean_ns baseline
        candidate_mean_ns := mean_ns candidate } := by
  simp only [analyze]
  rw [if_neg (by omega), if_pos hse]

/-- Main branch: nonzero standard error leads to the t-distribution p-value
with the significance threshold `α = 1 - confidence_level`. -/
theorem analyze_main (sqrtFn : ℚ → ℚ) (tcdf : ℚ → ℚ → Option ℚ)
    (test : WelchTTest) (baseline candidate : List ℕ)
    (hb : 2 ≤ baseline.length) (hc : 2 ≤ candidate.length)
    (hse : sqrtFn (variance_ns baseline (mean_ns baseline) / (baseline.length : ℚ)
      + variance_ns candidate (mean_ns candidate) / (candidate.length : ℚ)) ≠ 0) :
    analyze sqrtFn tcdf test baseline candidate =
      (let mean1 := mean_ns baseline
       let mean2 := mean_ns candidate
       let se := sqrtFn (variance_ns baseline mean1 / (baseline.length : ℚ)
          + variance_ns candidate mean2 / (candidate.length : ℚ))
       let p_value :=
         match tcdf (welch_satterthwaite_df (variance_ns baseline mean1)
            baseline.length (variance_ns candidate mean2) candidate.length)
            |(mean1 - mean2) / se| with
         | some c => 2 * (1 - c)
         | none => 1
       { p_value := p_value
         statistically_significant := decide (p_value < 1 - test.confidence_level)
         effect_size := if mean1 ≠ 0 then ((mean1 - mean2) / mean1) * 100 else 0
         confidence_level := test.confidence_level
         winner := if decide (p_value < 1 - test.confidence_level) then
             if mean1 > mean2 then some Side.Candidate else some Side.Baseline
           else none
         baseline_mean_ns := mean1
         candidate_mean_ns := mean2 }) := by
  simp only [analyze]
  rw [if_neg (by omega), if_neg hse]

/-! ## Claims about the statistical engine -/

/-- C1: for every pair of duration vectors and every confidence level
`c ∈ (0,1)`, the `TestResult` of `WelchTTest::analyze` satisfies: a present
winner implies the significance flag, and the significance flag implies
`p_value < 1 - c`.  Quantified over the external square root and Student-t
CDF, so it holds whatever those collaborators return. -/
theorem ttest_winner_significant_pvalue (sqrtFn : ℚ → ℚ)
    (tcdf : ℚ → ℚ → Option ℚ) (c : ℚ) (hc0 : 0 < c) (hc1 : c < 1)
    (baseline candidate : List ℕ) :
    ((analyze sqrtFn tcdf ⟨c⟩ baseline candidate).winner.isSome = true →
      (analyze sqrtFn tcdf ⟨c⟩ baseline candidate).statistically_significant = true) ∧
    ((analyze sqrtFn tcdf ⟨c⟩ baseline candidate).statistically_significant = true →
      (analyze sqrtFn tcdf ⟨c⟩ baseline candidate).p_value < 1 - c) := by
  by_cases h : baseline.length < 2 ∨ candidate.length < 2
  · rw [analyze_insufficient _ _ _ _ _ h]
    simp
  · push_neg at h
    by_cases hse : sqrtFn (variance_ns baseline (mean_ns baseline) / (baseline.length : ℚ)
        + variance_ns candidate (mean_ns candidate) / (candidate.length : ℚ)) = 0
    · rw [analyze_se_zero _ _ _ _ _ h.1 h.2 hse]
      constructor
      · rcases lt_trichotomy (mean_ns baseline) (mean_ns candidate) with hlt | heq | hgt
        · simp [hlt, not_lt.mpr hlt.le, ne_of_lt hlt]
        · simp [heq]
        · simp [hgt, ne_of_gt hgt]
      · intro hsig
        have hne : mean_ns baseline ≠ mean_ns candidate := by
          simpa using hsig
        simp only [if_neg hne]
        linarith
    · rw [analyze_main _ _ _ _ _ h.1 h.2 hse]
      constructor
      · by_cases hp : (match tcdf (welch_satterthwaite_df
            (variance_ns baseline (mean_ns baseline)) baseline.length
            (variance_ns candidate (mean_ns candidate)) candidate.length)
            |(mean_ns baseline - mean_ns candidate) /
              sqrtFn (variance_ns baseline (mean_ns baseline) / (baseline.length : ℚ)
                + variance_ns candidate (mean_ns candidate) / (candidate.length : ℚ))| with
            | some v => 2 * (1 - v)
            | none => 1) < 1 - c
        · simp [hp]
        · simp [hp]
      · intro hsig
        simpa using hsig

/-- C5: element-wise equal vectors of common length at least 2 give
`effect_size = 0`, not significant, no winner, `p_value = 1`.  The only fact
used about the external Student-t CDF is that at `0` it is `1/2` (it is the
CDF of a distribution symmetric about zero) unless the distribution
constructor failed (`none`), in which case the code already falls back to
`p = 1`. -/
theorem ttest_equal_vectors (sqrtFn : ℚ → ℚ) (tcdf : ℚ → ℚ → Option ℚ)
    (c : ℚ) (hc0 : 0 < c) (hc1 : c < 1)
    (Hcdf : ∀ df, tcdf df 0 = some (1 / 2) ∨ tcdf df 0 = none)
    (b : List ℕ) (hn : 2 ≤ b.length) :
    analyze sqrtFn tcdf ⟨c⟩ b b =
      { p_value := 1
        statistically_significant := false
        effect_size := 0
        confidence_level := c
        winner := none
        baseline_mean_ns := mean_ns b
        candidate_mean_ns := mean_ns b } := by
  by_cases hse : sqrtFn (variance_ns b (mean_ns b) / (b.length : ℚ)
      + variance_ns b (mean_ns b) / (b.length : ℚ)) = 0
  · rw [analyze_se_zero _ _ _ _ _ hn hn hse]
    simp
  · rw [analyze_main _ _ _ _ _ hn hn hse]
    have ht : (mean_ns b - mean_ns b) /
        sqrtFn (variance_ns b (mean_ns b) / (b.length : ℚ)
          + variance_ns b (mean_ns b) / (b.length : ℚ)) = 0 := by
      rw [sub_self, zero_div]
    simp only [ht, abs_zero]
    rcases Hcdf (welch_satterthwaite_df (variance_ns b (mean_ns b)) b.length
        (variance_ns b (mean_ns b)) b.length) with hcdf | hcdf <;>
      · rw [hcdf]
        have hns : ¬ ((1 : ℚ) < 1 - c) := by linarith
        norm_num [hns]

/-- C6: at least 2 samples on each side, both sample variances zero, and
different means give `p_value = 0`, significance, and the winner on the side
with the smaller mean.  `sqrtFn 0 = 0` is the one fact used about the
external `f64::sqrt`. -/
theorem ttest_zero_variances (sqrtFn : ℚ → ℚ) (tcdf : ℚ → ℚ → Option ℚ)
    (c : ℚ) (hsqrt : sqrtFn 0 = 0) (b cd : List ℕ)
    (hb : 2 ≤ b.length) (hc : 2 ≤ cd.length)
    (hv1 : variance_ns b (mean_ns b) = 0)
    (hv2 : variance_ns cd (mean_ns cd) = 0)
    (hm : mean_ns b ≠ mean_ns cd) :
    (analyze sqrtFn tcdf ⟨c⟩ b cd).p_value = 0 ∧
    (analyze sqrtFn tcdf ⟨c⟩ b cd).statistically_significant = true ∧
    (mean_ns b > mean_ns cd →
      (analyze sqrtFn tcdf ⟨c⟩ b cd).winner = some Side.Candidate) ∧
    (mean_ns cd > mean_ns b →
      (analyze sqrtFn tcdf ⟨c⟩ b cd).winner = some Side.Baseline) := by
  have hse : sqrtFn (variance_ns b (mean_ns b) / (b.length : ℚ)
      + variance_ns cd (mean_ns cd) / (cd.length : ℚ)) = 0 := by
    rw [hv1, hv2]
    simpa using hsqrt
  rw [analyze_se_zero _ _ _ _ _ hb hc hse]
  refine ⟨by simp [hm], by simp [hm], ?_, ?_⟩
  · intro hgt
    simp [hgt]
  · intro hgt
    simp [hgt, not_lt.mpr hgt.le]

/-- C7: fewer than 2 samples on either side give `p_value = 1`, not
significant, no winner, `effect_size = 0`, for all sample values. -/
theorem ttest_short_input (sqrtFn : ℚ → ℚ) (tcdf : ℚ → ℚ → Option ℚ)
    (test : WelchTTest) (baseline candidate : List ℕ)
    (h : baseline.length < 2 ∨ candidate.length < 2) :
    (analyze sqrtFn tcdf test baseline candidate).p_value = 1 ∧
    (analyze sqrtFn tcdf test baseline candidate).statistically_significant = false ∧
    (analyze sqrtFn tcdf test baseline candidate).winner = none ∧
    (analyze sqrtFn tcdf test baseline candidate).effect_size = 0 := by
  rw [analyze_insufficient _ _ _ _ _ h]
  exact ⟨rfl, rfl, rfl, rfl⟩

/-! ## Claims about the harness -/

/-- C2: the claim/release handlers implement exactly the six-transition state
machine of spec §4.3: fresh claim, idempotent re-claim, conflicting claim
(409, "already claimed"), matching release, mismatched release (400,
`success:false`), and release while unclaimed (400). -/
theorem claim_release_state_machine :
    (∀ n : String, claimHandler none n = (some n, 200, ClaimResponse.mkSuccess)) ∧
    (∀ n : String, claimHandler (some n) n = (some n, 200, ClaimResponse.mkSuccess)) ∧
    (∀ n m : String, m ≠ n →
      claimHandler (some n) m = (some n, 409, ClaimResponse.already_claimed)) ∧
    (∀ n : String, releaseHandler (some n) n = (none, 200, ReleaseResponse.mkSuccess)) ∧
    (∀ n m : String, m ≠ n →
      releaseHandler (some n) m = (some n, 400, { success := false })) ∧
    (∀ m : String, releaseHandler none m = (none, 400, { success := false })) := by
  refine ⟨fun n => rfl, fun n => ?_, fun n m hmn => ?_, fun n => ?_, fun n m hmn => ?_,
    fun m => rfl⟩
  · simp [claimHandler]
  · simp [claimHandler, Ne.symm hmn]
  · simp [releaseHandler]
  · simp [releaseHandler, Ne.symm hmn]

/-- C3: with the harness in state `Claimed(n)`, a `POST /run` whose claim
header is absent or differs from `n` is answered 403, no benchmark function
is invoked, and claim state and registry are unchanged. -/
theorem run_mutual_exclusion (n benchmark_id : String)
    (registry : BenchmarkRegistry) (header : Option String)
    (hh : ∀ v, header = some v → v ≠ n) :
    (run_iteration (some n) registry header benchmark_id).status = 403 ∧
    (run_iteration (some n) registry header benchmark_id).invoked = [] ∧
    (run_iteration (some n) registry header benchmark_id).claimState = some n ∧
    (run_iteration (some n) registry header benchmark_id).registry = registry := by
  cases header with
  | none => exact ⟨rfl, rfl, rfl, rfl⟩
  | some v =>
      have hv : v ≠ n := hh v rfl
      simp [run_iteration, check_claim, hv]

/-- C9: registering a name that is already present replaces the existing
entry: the registry length is unchanged, the name is still contained, and a
subsequent `run` of that name invokes the newly registered function. -/
theorem register_existing_replaces (r : BenchmarkRegistry) (name : String)
    (f : ℕ) (hmem : containsBench r name = true) :
    lenBench (register r name f) = lenBench r ∧
    containsBench (register r name f) name = true ∧
    runBench (register r name f) name = some f := by
  refine ⟨?_, ?_, ?_⟩
  · induction r with
    | nil => simp [containsBench, lookupBench] at hmem
    | cons hd tl ih =>
        obtain ⟨k, g⟩ := hd
        by_cases hk : k = name
        · simp [register, lenBench, hk]
        · have hmem2 : containsBench tl name = true := by
            simpa [containsBench, lookupBench, hk] using hmem
          simpa [register, lenBench, hk] using ih hmem2
  · induction r with
    | nil => simp [register, containsBench, lookupBench]
    | cons hd tl ih =>
        obtain ⟨k, g⟩ := hd
        by_cases hk : k = name
        · simp [register, containsBench, lookupBench, hk]
        · have hmem2 : containsBench tl name = true := by
            simpa [containsBench, lookupBench, hk] using hmem
          simpa [register, containsBench, lookupBench, hk] using ih hmem2
  · induction r with
    | nil => simp [register, runBench, lookupBench]
    | cons hd tl ih =>
        obtain ⟨k, g⟩ := hd
        by_cases hk : k = name
        · simp [register, runBench, lookupBench, hk]
        · have hmem2 : containsBench tl name = true := by
            simpa [containsBench, lookupBench, hk] using hmem
          simpa [register, runBench, lookupBench, hk] using ih hmem2

/-! ## Claims about the wire protocol -/

/-- C10: for every `Duration` (total nanosecond count within `Duration`'s
range), `RunIterationResponse::success(d).duration()` is `d` truncated modulo
`2 ^ 64`; in particular it round-trips exactly below `2 ^ 64`. -/
theorem success_duration_roundtrip (n : ℕ) (hmax : n ≤ durationMaxNanos) :
    (RunIterationResponse.mkSuccess n).duration = n % 2 ^ 64 ∧
    (n < 2 ^ 64 → (RunIterationResponse.mkSuccess n).duration = n) := by
  refine ⟨rfl, fun h => ?_⟩
  have h2 : n % 2 ^ 64 = n := Nat.mod_eq_of_lt h
  simpa [RunIterationResponse.mkSuccess, RunIterationResponse.duration] using h2

/-! ## C4: what `POST /run` reports for a registered benchmark

`run_iteration` invokes the registered function and reports the duration that
function itself returned; it takes no measurement of its own.  The claim that
the harness measures the wall-clock duration of the invocation is refuted by
comparing the handler's output with the response the spec sentence describes
for an invocation whose actual elapsed time differs from the function's
report. -/

/-- Modelled from the spec: the `POST /run` success response claimed by
spec §4.3 "Run semantics" ("measures the wall-clock duration across the
entire invocation with the highest-resolution monotonic clock available, and
returns `duration_ns = floor(elapsed.nanos)`, `success = true`"), as a
function of the invocation's actual elapsed wall-clock nanoseconds — a
quantity of the environment that the handler code never reads. -/
def specMeasuredResponse (elapsed_ns : ℕ) : RunIterationResponse :=
  { duration_ns := elapsed_ns % 2 ^ 64
    success := true
    error := none }

/-- A registry holding one benchmark whose function reports 5 ns. -/
def reg0 : BenchmarkRegistry := [("b", 5)]

/-- C4 counterexample: serving `POST /run` for `"b"` returns the function's
own report (5 ns) — not the response the spec sentence prescribes for an
invocation whose actual wall-clock elapsed time is, say, 7 ns.  Since the
handler's output is independent of the real elapsed time, it cannot be the
harness's own wall-clock measurement. -/
theorem run_reports_function_value_cex :
    (run_iteration none reg0 none "b").body =
      RunHttpBody.iteration (RunIterationResponse.mkSuccess 5) ∧
    RunIterationResponse.mkSuccess 5 ≠ specMeasuredResponse 7 := by
  constructor
  · rfl
  · decide

/-- C4 (amended): on `POST /run` with a passing claim check and a registered
benchmark id, the harness synchronously invokes the benchmark function
exactly once and returns 200 with `success = true` and `duration_ns` equal to
the u64 truncation of the duration the function itself reported; claim state
and registry are unchanged. -/
theorem run_reports_function_duration (claimState : Option String)
    (registry : BenchmarkRegistry) (header : Option String)
    (benchmark_id : String) (d : ℕ)
    (hclaim : check_claim claimState header = none)
    (hrun : runBench registry benchmark_id = some d) :
    run_iteration claimState registry header benchmark_id =
      { claimState := claimState
        registry := registry
        status := 200
        body := RunHttpBody.iteration
          { duration_ns := d % 2 ^ 64, success := true, error := none }
        invoked := [benchmark_id] } := by
  unfold run_iteration
  rw [hclaim, hrun]
  rfl

/-! ## C8: the orchestrator's health wait -/

/-- C8 counterexample: with a 2000 ms timeout and a single poll that fails
with `start.elapsed()` already at 5000 ms, the error reports `timeout_secs =
2` — the configured timeout in seconds, not the 5 elapsed seconds — and its
`last_error` is that very poll's error, seen at (not before) the timeout. -/
theorem wait_for_health_cex :
    wait_for_health "http://127.0.0.1:9100" 2000 [(some "connection refused", 5000)] =
      WaitOutcome.timeoutErr "http://127.0.0.1:9100" 2 "connection refused" ∧
    (5000 / 1000 : ℕ) ≠ 2 := by
  constructor
  · rfl
  · decide

/-- C8 (amended): `wait_for_health` polls `GET /health` at 100 ms intervals;
a successful check stops the loop with `Ok`; a failed check before the
timeout records the error and retries; a failed check at or past the timeout
returns a `TimeoutError` naming the handle's URL, the configured timeout in
whole seconds, and the last error recorded before the timeout, falling back
to the timing-out check's own error when no earlier check had failed. -/
theorem wait_for_health_behaviour :
    retry_interval_ms = 100 ∧
    (∀ (url : String) (t el : ℕ) (le : Option String)
        (rest : List (Option String × ℕ)),
      wait_for_health_loop url t le ((none, el) :: rest) = WaitOutcome.ok) ∧
    (∀ (url e : String) (t el : ℕ) (le : Option String)
        (rest : List (Option String × ℕ)), el < t →
      wait_for_health_loop url t le ((some e, el) :: rest) =
        wait_for_health_loop url t (some e) rest) ∧
    (∀ (url e : String) (t el : ℕ) (le : Option String)
        (rest : List (Option String × ℕ)), ¬ el < t →
      wait_for_health_loop url t le ((some e, el) :: rest) =
        WaitOutcome.timeoutErr url (t / 1000) (le.getD e)) := by
  refine ⟨rfl, fun url t el le rest => rfl, fun url e t el le rest h => ?_,
    fun url e t el le rest h => ?_⟩
  · simp [wait_for_health_loop, h]
  · simp [wait_for_health_loop, h]

/-! ## Witnesses: the claim theorems applied at concrete inputs -/

theorem ttest_winner_significant_pvalue_witness :
    (0 : ℚ) < 95 / 100 ∧ (95 / 100 : ℚ) < 1 ∧
    (((analyze (fun q => q) (fun _ _ => some (1 / 2)) ⟨95 / 100⟩ [1, 2]
        [3, 4]).winner.isSome = true →
      (analyze (fun q => q) (fun _ _ => some (1 / 2)) ⟨95 / 100⟩ [1, 2]
        [3, 4]).statistically_significant = true) ∧
    ((analyze (fun q => q) (fun _ _ => some (1 / 2)) ⟨95 / 100⟩ [1, 2]
        [3, 4]).statistically_significant = true →
      (analyze (fun q => q) (fun _ _ => some (1 / 2)) ⟨95 / 100⟩ [1, 2]
        [3, 4]).p_value < 1 - 95 / 100)) :=
  ⟨by norm_num, by norm_num,
    ttest_winner_significant_pvalue (fun q => q) (fun _ _ => some (1 / 2))
      (95 / 100) (by norm_num) (by norm_num) [1, 2] [3, 4]⟩

theorem ttest_equal_vectors_witness :
    (0 : ℚ) < 95 / 100 ∧ (95 / 100 : ℚ) < 1 ∧ 2 ≤ [1, 2].length ∧
    analyze (fun q => q) (fun _ _ => some (1 / 2)) ⟨95 / 100⟩ [1, 2] [1, 2] =
      { p_value := 1
        statistically_significant := false
        effect_size := 0
        confidence_level := 95 / 100
        winner := none
        baseline_mean_ns := 3 / 2
        candidate_mean_ns := 3 / 2 } := by
  refine ⟨by norm_num, by norm_num, by decide, ?_⟩
  have h := ttest_equal_vectors (fun q => q) (fun _ _ => some (1 / 2))
    (95 / 100) (by norm_num) (by norm_num) (fun df => Or.inl rfl) [1, 2] (by decide)
  rw [h]
  norm_num [TestResult.mk.injEq, mean_ns]

theorem ttest_zero_variances_witness :
    variance_ns [2, 2] (mean_ns [2, 2]) = 0 ∧
    variance_ns [1, 1] (mean_ns [1, 1]) = 0 ∧
    mean_ns [2, 2] ≠ mean_ns [1, 1] ∧
    (analyze (fun _ => 0) (fun _ _ => some (1 / 2)) ⟨95 / 100⟩ [2, 2]
      [1, 1]).p_value = 0 ∧
    (analyze (fun _ => 0) (fun _ _ => some (1 / 2)) ⟨95 / 100⟩ [2, 2]
      [1, 1]).statistically_significant = true ∧
    (analyze (fun _ => 0) (fun _ _ => some (1 / 2)) ⟨95 / 100⟩ [2, 2]
      [1, 1]).winner = some Side.Candidate := by
  have hv1 : variance_ns [2, 2] (mean_ns [2, 2]) = 0 := by
    norm_num [variance_ns, mean_ns]
  have hv2 : variance_ns [1, 1] (mean_ns [1, 1]) = 0 := by
    norm_num [variance_ns, mean_ns]
  have hm : mean_ns [2, 2] ≠ mean_ns [1, 1] := by
    norm_num [mean_ns]
  have hgt : mean_ns [2, 2] > mean_ns [1, 1] := by
    norm_num [mean_ns]
  have h := ttest_zero_variances (fun _ => 0) (fun _ _ => some (1 / 2))
    (95 / 100) rfl [2, 2] [1, 1] (by decide) (by decide) hv1 hv2 hm
  exact ⟨hv1, hv2, hm, h.1, h.2.1, h.2.2.1 hgt⟩

theorem ttest_short_input_witness :
    ([5].length < 2 ∨ [7, 8].length < 2) ∧
    (analyze (fun q => q) (fun _ _ => some (1 / 2)) ⟨95 / 100⟩ [5]
      [7, 8]).p_value = 1 ∧
    (analyze (fun q => q) (fun _ _ => some (1 / 2)) ⟨95 / 100⟩ [5]
      [7, 8]).statistically_significant = false ∧
    (analyze (fun q => q) (fun _ _ => some (1 / 2)) ⟨95 / 100⟩ [5]
      [7, 8]).winner = none ∧
    (analyze (fun q => q) (fun _ _ => some (1 / 2)) ⟨95 / 100⟩ [5]
      [7, 8]).effect_size = 0 := by
  have h := ttest_short_input (fun q => q) (fun _ _ => some (1 / 2))
    ⟨95 / 100⟩ [5] [7, 8] (by decide)
  exact ⟨by decide, h.1, h.2.1, h.2.2.1, h.2.2.2⟩

theorem claim_release_state_machine_witness :
    claimHandler none "a" = (some "a", 200, ClaimResponse.mkSuccess) ∧
    claimHandler (some "a") "a" = (some "a", 200, ClaimResponse.mkSuccess) ∧
    claimHandler (some "a") "b" = (some "a", 409, ClaimResponse.already_claimed) ∧
    releaseHandler (some "a") "a" = (none, 200, ReleaseResponse.mkSuccess) ∧
    releaseHandler (some "a") "b" = (some "a", 400, { success := false }) ∧
    releaseHandler none "b" = (none, 400, { success := false }) :=
  ⟨claim_release_state_machine.1 "a",
   claim_release_state_machine.2.1 "a",
   claim_release_state_machine.2.2.1 "a" "b" (by decide),
   claim_release_state_machine.2.2.2.1 "a",
   claim_release_state_machine.2.2.2.2.1 "a" "b" (by decide),
   claim_release_state_machine.2.2.2.2.2 "b"⟩

theorem run_mutual_exclusion_witness :
    ("x" : String) ≠ "n" ∧
    (run_iteration (some "n") [("b", 5)] (some "x") "b").status = 403 ∧
    (run_iteration (some "n") [("b", 5)] (some "x") "b").invoked = [] ∧
    (run_iteration (some "n") [("b", 5)] (some "x") "b").claimState = some "n" ∧
    (run_iteration (some "n") [("b", 5)] (some "x") "b").registry = [("b", 5)] := by
  have h := run_mutual_exclusion "n" "b" [("b", 5)] (some "x")
    (fun v hv => by cases hv; decide)
  exact ⟨by decide, h.1, h.2.1, h.2.2.1, h.2.2.2⟩

theorem register_existing_replaces_witness :
    containsBench [("b", 1)] "b" = true ∧
    lenBench (register [("b", 1)] "b" 2) = lenBench [("b", 1)] ∧
    containsBench (register [("b", 1)] "b" 2) "b" = true ∧
    runBench (register [("b", 1)] "b" 2) "b" = some 2 := by
  have h := register_existing_replaces [("b", 1)] "b" 2 (by decide)
  exact ⟨by decide, h.1, h.2.1, h.2.2⟩

theorem success_duration_roundtrip_witness :
    (2 ^ 64 + 3 : ℕ) ≤ durationMaxNanos ∧
    (RunIterationResponse.mkSuccess (2 ^ 64 + 3)).duration = (2 ^ 64 + 3) % 2 ^ 64 ∧
    (12345 : ℕ) ≤ durationMaxNanos ∧
    (RunIterationResponse.mkSuccess 12345).duration = 12345 := by
  have h1 := success_duration_roundtrip (2 ^ 64 + 3) (by norm_num [durationMaxNanos])
  have h2 := success_duration_roundtrip 12345 (by norm_num [durationMaxNanos])
  exact ⟨by norm_num [durationMaxNanos], h1.1, by norm_num [durationMaxNanos],
    h2.2 (by norm_num)⟩

theorem run_reports_function_duration_witness :
    check_claim (some "n") (some "n") = none ∧
    runBench [("b", 5)] "b" = some 5 ∧
    run_iteration (some "n") [("b", 5)] (some "n") "b" =
      { claimState := some "n"
        registry := [("b", 5)]
        status := 200
        body := RunHttpBody.iteration
          { duration_ns := 5, success := true, error := none }
        invoked := ["b"] } := by
  have h := run_reports_function_duration (some "n") [("b", 5)] (some "n") "b" 5
    (by decide) rfl
  refine ⟨by decide, rfl, ?_⟩
  rw [h]
  decide

theorem wait_for_health_behaviour_witness :
    retry_interval_ms = 100 ∧
    wait_for_health_loop "u" 2000 none [(none, 50)] = WaitOutcome.ok ∧
    (100 : ℕ) < 2000 ∧
    wait_for_health_loop "u" 2000 none [(some "a", 100), (some "b", 2500)] =
      wait_for_health_loop "u" 2000 (some "a") [(some "b", 2500)] ∧
    ¬ (2500 : ℕ) < 2000 ∧
    wait_for_health_loop "u" 2000 (some "a") [(some "b", 2500)] =
      WaitOutcome.timeoutErr "u" 2 "a" := by
  have h := wait_for_health_behaviour
  refine ⟨h.1, h.2.1 "u" 2000 50 none [], by decide,
    h.2.2.1 "u" "a" 2000 100 none [(some "b", 2500)] (by decide), by decide, ?_⟩
  have h4 := h.2.2.2 "u" "b" 2000 2500 (some "a") [] (by decide)
  rw [h4]
  rfl

end CriterionHypothesis
